import Mathlib

/-!
# Verification of the GitHub-Analyst-AI pipeline

Shallow embedding of the repository's core logic:

* `services/analytics-service/main.py` — AI-response normalization
  (`parse_ai_response`) and the `POST /analyze` endpoint (`analyze_with_ai`).
* `services/api-gateway/main.py` — the orchestration pipeline
  (`analyze_repository`, `call_service`).
* `services/github-service/main.py` — the derived numeric metrics of
  `analyze_repository` (activity index, average commits per day).
* `services/database-service/main.py` — the statistics store
  (`save_statistics`, `get_repo_history`).

Modelling conventions:

* JSON values are modelled by the inductive `Json`; `json.loads` is modelled
  by `loads`, a total recursive-descent parser over `List Char` covering the
  JSON fragment the services exchange (numbers are restricted to integer
  numerals; floating-point numerals, exponents and `NaN`/`Infinity` fail to
  parse, which no claim depends on).
* Python dicts are association lists (`List (String × Json)`); key insertion
  (`objInsert`) keeps the position of an existing key and replaces its value,
  exactly like a Python dict.
* Python `float` arithmetic in the GitHub service is modelled by exact
  rational arithmetic (`ℚ`) with `round2` as `round(x, 2)`
  (round-half-to-even, as Python's `round` ties).
* Outbound HTTP calls are modelled by outcome parameters (`HttpOutcome`,
  `MistralOutcome`): each theorem quantifies over the behaviour of the
  remote peer.
-/

namespace GithubAnalyst

/-! ## JSON values (the shape produced by Python's `json.loads`) -/

inductive Json where
  | null : Json
  | bool (b : Bool) : Json
  | num (n : Int) : Json
  | str (s : String) : Json
  | arr (elems : List Json) : Json
  | obj (fields : List (String × Json)) : Json

mutual

/-- Structural equality test on JSON values. -/
def Json.beq : Json → Json → Bool
  | .null, .null => true
  | .bool a, .bool b => a == b
  | .num a, .num b => a == b
  | .str a, .str b => a == b
  | .arr xs, .arr ys => Json.beqL xs ys
  | .obj xs, .obj ys => Json.beqKV xs ys
  | _, _ => false

def Json.beqL : List Json → List Json → Bool
  | [], [] => true
  | x :: xs, y :: ys => Json.beq x y && Json.beqL xs ys
  | _, _ => false

def Json.beqKV : List (String × Json) → List (String × Json) → Bool
  | [], [] => true
  | (k, v) :: xs, (k', v') :: ys => k == k' && Json.beq v v' && Json.beqKV xs ys
  | _, _ => false

end

mutual

theorem Json.eqOfBeq : ∀ a b : Json, Json.beq a b = true → a = b
  | .null, .null, _ => rfl
  | .bool _, .bool _, h => congrArg Json.bool (eq_of_beq h)
  | .num _, .num _, h => congrArg Json.num (eq_of_beq h)
  | .str _, .str _, h => congrArg Json.str (eq_of_beq h)
  | .arr xs, .arr ys, h => congrArg Json.arr (Json.eqLOfBeq xs ys h)
  | .obj xs, .obj ys, h => congrArg Json.obj (Json.eqKVOfBeq xs ys h)
  | .null, .bool _, h | .null, .num _, h | .null, .str _, h
  | .null, .arr _, h | .null, .obj _, h
  | .bool _, .null, h | .bool _, .num _, h | .bool _, .str _, h
  | .bool _, .arr _, h | .bool _, .obj _, h
  | .num _, .null, h | .num _, .bool _, h | .num _, .str _, h
  | .num _, .arr _, h | .num _, .obj _, h
  | .str _, .null, h | .str _, .bool _, h | .str _, .num _, h
  | .str _, .arr _, h | .str _, .obj _, h
  | .arr _, .null, h | .arr _, .bool _, h | .arr _, .num _, h
  | .arr _, .str _, h | .arr _, .obj _, h
  | .obj _, .null, h | .obj _, .bool _, h | .obj _, .num _, h
  | .obj _, .str _, h | .obj _, .arr _, h => nomatch h

theorem Json.eqLOfBeq : ∀ xs ys : List Json, Json.beqL xs ys = true → xs = ys
  | [], [], _ => rfl
  | x :: xs, y :: ys, h => by
    simp only [Json.beqL, Bool.and_eq_true] at h
    rw [Json.eqOfBeq x y h.1, Json.eqLOfBeq xs ys h.2]
  | [], _ :: _, h => nomatch h
  | _ :: _, [], h => nomatch h

theorem Json.eqKVOfBeq : ∀ xs ys : List (String × Json), Json.beqKV xs ys = true → xs = ys
  | [], [], _ => rfl
  | (k, v) :: xs, (k', v') :: ys, h => by
    simp only [Json.beqKV, Bool.and_eq_true] at h
    rw [eq_of_beq h.1.1, Json.eqOfBeq v v' h.1.2, Json.eqKVOfBeq xs ys h.2]
  | [], _ :: _, h => nomatch h
  | _ :: _, [], h => nomatch h

end

mutual

theorem Json.beqSelf : ∀ a : Json, Json.beq a a = true
  | .null => rfl
  | .bool b => by simp [Json.beq]
  | .num n => by simp [Json.beq]
  | .str s => by simp [Json.beq]
  | .arr xs => Json.beqLSelf xs
  | .obj xs => Json.beqKVSelf xs

theorem Json.beqLSelf : ∀ xs : List Json, Json.beqL xs xs = true
  | [] => rfl
  | x :: xs => by simp [Json.beqL, Json.beqSelf x, Json.beqLSelf xs]

theorem Json.beqKVSelf : ∀ xs : List (String × Json), Json.beqKV xs xs = true
  | [] => rfl
  | (k, v) :: xs => by simp [Json.beqKV, Json.beqSelf v, Json.beqKVSelf xs]

end

instance : DecidableEq Json := fun a b =>
  if h : Json.beq a b = true then .isTrue (Json.eqOfBeq a b h)
  else .isFalse fun he => h (he ▸ Json.beqSelf a)

/-- Python dict assignment `d[k] = v`: replace the value of an existing key
in place, otherwise append the new pair at the end. -/
def objInsert (k : String) (v : Json) : List (String × Json) → List (String × Json)
  | [] => [(k, v)]
  | (k', v') :: rest => if k' == k then (k, v) :: rest else (k', v') :: objInsert k v rest

/-! ## A model of `json.loads`

Recursive-descent parser over `List Char`, fuelled (the fuel is a bound on
the depth of the parse call tree; `loads` supplies a sufficient bound).
Restriction: numeric literals are integer numerals only. -/

def isJsonWs (c : Char) : Bool :=
  c == ' ' || c == '\t' || c == '\n' || c == '\r'

def skipWs (cs : List Char) : List Char := cs.dropWhile isJsonWs

def hexDigit (c : Char) : Option Nat :=
  if c.isDigit then some (c.toNat - 48)
  else if 'a' ≤ c && c ≤ 'f' then some (c.toNat - 87)
  else if 'A' ≤ c && c ≤ 'F' then some (c.toNat - 55)
  else none

def hex4 (h1 h2 h3 h4 : Char) : Option Nat := do
  let a ← hexDigit h1
  let b ← hexDigit h2
  let c ← hexDigit h3
  let d ← hexDigit h4
  pure (((a * 16 + b) * 16 + c) * 16 + d)

/-- Parse the remainder of a JSON string literal (the opening quote already
consumed), handling the standard escapes.  Raw control characters are
rejected, as in Python's strict mode. -/
def parseStrAux : List Char → List Char → Option (String × List Char)
  | acc, '"' :: rest => some (String.mk acc.reverse, rest)
  | acc, '\\' :: esc => match esc with
    | '"' :: r => parseStrAux ('"' :: acc) r
    | '\\' :: r => parseStrAux ('\\' :: acc) r
    | '/' :: r => parseStrAux ('/' :: acc) r
    | 'b' :: r => parseStrAux ('\x08' :: acc) r
    | 'f' :: r => parseStrAux ('\x0c' :: acc) r
    | 'n' :: r => parseStrAux ('\n' :: acc) r
    | 'r' :: r => parseStrAux ('\r' :: acc) r
    | 't' :: r => parseStrAux ('\t' :: acc) r
    | 'u' :: h1 :: h2 :: h3 :: h4 :: r =>
      match hex4 h1 h2 h3 h4 with
      | some n => parseStrAux (Char.ofNat n :: acc) r
      | none => none
    | _ => none
  | acc, c :: rest => if c.toNat < 32 then none else parseStrAux (c :: acc) rest
  | _, [] => none

def parseStr (cs : List Char) : Option (String × List Char) := parseStrAux [] cs

def parseDigits : Nat → List Char → Nat × List Char
  | acc, c :: rest =>
    if c.isDigit then parseDigits (acc * 10 + (c.toNat - 48)) rest else (acc, c :: rest)
  | acc, [] => (acc, [])

/-- Non-negative integer numeral; a leading `0` is not followed by more
digits (as in the JSON grammar). -/
def parseNatNum : List Char → Option (Nat × List Char)
  | '0' :: rest => some (0, rest)
  | c :: rest => if c.isDigit then some (parseDigits (c.toNat - 48) rest) else none
  | [] => none

def parseNum : List Char → Option (Json × List Char)
  | '-' :: rest =>
    match parseNatNum rest with
    | some (n, r) => some (Json.num (-(n : Int)), r)
    | none => none
  | cs =>
    match parseNatNum cs with
    | some (n, r) => some (Json.num (n : Int), r)
    | none => none

/-- Parser modes: a single value, the elements of an array after its first
element position, or the members of an object after its first key position. -/
inductive PMode where
  | val : PMode
  | arrElems (acc : List Json) : PMode
  | objMems (acc : List (String × Json)) : PMode

/-- The core parser.  Input is expected with leading whitespace already
skipped; returns the parsed value and the unconsumed remainder. -/
def parseP : Nat → PMode → List Char → Option (Json × List Char)
  | 0, _, _ => none
  | fuel + 1, .val, cs =>
    match cs with
    | '{' :: rest =>
      let cs1 := skipWs rest
      match cs1 with
      | '}' :: r2 => some (Json.obj [], r2)
      | _ => parseP fuel (.objMems []) cs1
    | '[' :: rest =>
      let cs1 := skipWs rest
      match cs1 with
      | ']' :: r2 => some (Json.arr [], r2)
      | _ => parseP fuel (.arrElems []) cs1
    | '"' :: rest =>
      match parseStr rest with
      | some (s, r) => some (Json.str s, r)
      | none => none
    | 't' :: 'r' :: 'u' :: 'e' :: rest => some (Json.bool true, rest)
    | 'f' :: 'a' :: 'l' :: 's' :: 'e' :: rest => some (Json.bool false, rest)
    | 'n' :: 'u' :: 'l' :: 'l' :: rest => some (Json.null, rest)
    | cs' => parseNum cs'
  | fuel + 1, .arrElems acc, cs =>
    match parseP fuel .val cs with
    | none => none
    | some (v, rest) =>
      match skipWs rest with
      | ']' :: r2 => some (Json.arr (acc ++ [v]), r2)
      | ',' :: r2 => parseP fuel (.arrElems (acc ++ [v])) (skipWs r2)
      | _ => none
  | fuel + 1, .objMems acc, cs =>
    match cs with
    | '"' :: rest =>
      match parseStr rest with
      | none => none
      | some (k, r1) =>
        match skipWs r1 with
        | ':' :: r2 =>
          match parseP fuel .val (skipWs r2) with
          | none => none
          | some (v, r3) =>
            let acc2 := objInsert k v acc
            match skipWs r3 with
            | '}' :: r4 => some (Json.obj acc2, r4)
            | ',' :: r4 => parseP fuel (.objMems acc2) (skipWs r4)
            | _ => none
        | _ => none
    | _ => none

/-- Model of Python's `json.loads`: parse one JSON value and require that
only whitespace remains. -/
def loads (s : String) : Option Json :=
  let cs := skipWs s.data
  match parseP (2 * cs.length + 2) .val cs with
  | some (v, rest) => if (skipWs rest).isEmpty then some v else none
  | none => none

/-! ## Analytics service (`services/analytics-service/main.py`)

`parse_ai_response` (lines 144–174): strip markdown fences, locate the
greedy `{...}` span, parse it as JSON, and repair the `insights` /
`recommendations` fields; on any failure return the default structure. -/

/-- `true` when `p` is an initial segment of `cs`. -/
def leadsWith : List Char → List Char → Bool
  | [], _ => true
  | _ :: _, [] => false
  | p :: ps, c :: cs => p == c && leadsWith ps cs

/-- The characters of the regex alternative `` ```json ``. -/
def fence7 : List Char := ['`', '`', '`', 'j', 's', 'o', 'n']

/-- The characters of the regex alternative `` ``` ``. -/
def fence3 : List Char := ['`', '`', '`']

/-- One left-to-right pass of `re.sub(r'```json|```', '', text)`: at each
position the alternative `` ```json `` is preferred over `` ``` ``, exactly
as the regex alternation matches.  Fuelled so that the function reduces in
the kernel; `stripFences` supplies fuel `cs.length`, which suffices because
every step consumes at least one character. -/
def sfAux : Nat → List Char → List Char
  | 0, _ => []
  | _ + 1, [] => []
  | fuel + 1, c :: cs =>
    if leadsWith fence7 (c :: cs) then sfAux fuel (cs.drop 6)
    else if leadsWith fence3 (c :: cs) then sfAux fuel (cs.drop 2)
    else c :: sfAux fuel cs

def stripFences (cs : List Char) : List Char := sfAux cs.length cs

/-- Python `str.whitespace` characters relevant to `.strip()` (ASCII). -/
def isPySpace (c : Char) : Bool :=
  c == ' ' || c == '\t' || c == '\n' || c == '\r' || c == '\x0b' || c == '\x0c'

/-- Python's `str.strip()`. -/
def pyStrip (cs : List Char) : List Char :=
  ((cs.dropWhile isPySpace).reverse.dropWhile isPySpace).reverse

/-- `re.search(r'\{.*\}', clean_text, re.DOTALL)`: with a greedy `.*` the
leftmost match runs from the first `{` to the last `}` of the text, and
exists exactly when some `}` occurs after the first `{`. -/
def findJsonSpan (cs : List Char) : Option (List Char) :=
  let fromBrace := cs.dropWhile (fun c => !(c == '{'))
  match fromBrace with
  | [] => none
  | _ :: _ =>
    let spanRev := fromBrace.reverse.dropWhile (fun c => !(c == '}'))
    if spanRev.isEmpty then none else some spanRev.reverse

/-- Default `insights` structure of `parse_ai_response` (line 149). -/
def default_insights : Json :=
  .obj [("strengths", .arr []), ("weaknesses", .arr []), ("trends", .arr []),
        ("health_score", .str "5")]

/-- Default `recommendations` of `parse_ai_response` (line 150). -/
def default_recommendations : Json :=
  .arr [.str "Продолжайте мониторинг репозитория"]

/-- The `default_res` dict of `parse_ai_response` (lines 146–151). -/
def default_res (text : String) : List (String × Json) :=
  [("summary", .str "Анализ завершен"), ("analysis", .str text),
   ("insights", default_insights), ("recommendations", default_recommendations)]

/-- `isinstance(·, dict)` on the result of a dict lookup (`"k" in data and
isinstance(data["k"], dict)`). -/
def isObjVal : Option Json → Bool
  | some (.obj _) => true
  | _ => false

/-- `isinstance(·, list)` on the result of a dict lookup. -/
def isArrVal : Option Json → Bool
  | some (.arr _) => true
  | _ => false

/-- Lines 163–167 of `parse_ai_response`: substitute the defaults for a
missing or mistyped `insights` record / `recommendations` list. -/
def repairData (data : List (String × Json)) : List (String × Json) :=
  let d1 := if isObjVal (List.lookup "insights" data) then data
            else objInsert "insights" default_insights data
  if isArrVal (List.lookup "recommendations" d1) then d1
  else objInsert "recommendations" default_recommendations d1

/-- Lines 154–155: `re.sub(r'```json|```', '', text).strip()`. -/
def clean_text (text : String) : List Char := pyStrip (stripFences text.data)

/-- The JSON object extracted by lines 157–161 (`re.search` + `json.loads`),
`none` when there is no span or the span does not parse as a JSON object
(the span always starts with `{`, so a successful parse is an object). -/
def extractedObj (text : String) : Option (List (String × Json)) :=
  match findJsonSpan (clean_text text) with
  | none => none
  | some span =>
    match loads (String.mk span) with
    | some (.obj d) => some d
    | _ => none

/-- `parse_ai_response` (lines 144–174): repaired parsed object, or the
default structure when no span is found or parsing raises. -/
def parse_ai_response (text : String) : List (String × Json) :=
  match extractedObj text with
  | some data => repairData data
  | none => default_res text

/-! ### The `POST /analyze` endpoint (`analyze_with_ai`, lines 52–89) -/

/-- Python's `str()` conversion used by f-string interpolation, on values
decoded from JSON.  Containers render through `pyRepr`; `repr` of a string
is modelled without escape processing (no claim exercises it). -/
def sQuote : String := (Char.ofNat 39).toString

mutual

def pyRepr : Json → String
  | .null => "None"
  | .bool true => "True"
  | .bool false => "False"
  | .num n => toString n
  | .str s => sQuote ++ s ++ sQuote
  | .arr xs => "[" ++ pyReprL xs ++ "]"
  | .obj kvs => "\x7b" ++ pyReprKV kvs ++ "\x7d"

def pyReprL : List Json → String
  | [] => ""
  | [x] => pyRepr x
  | x :: xs => pyRepr x ++ ", " ++ pyReprL xs

def pyReprKV : List (String × Json) → String
  | [] => ""
  | [(k, v)] => sQuote ++ k ++ sQuote ++ ": " ++ pyRepr v
  | (k, v) :: xs => sQuote ++ k ++ sQuote ++ ": " ++ pyRepr v ++ ", " ++ pyReprKV xs

end

def pyStr : Json → String
  | .str s => s
  | v => pyRepr v

/-- Request body of `POST /analyze` (`AnalyticsRequest`, lines 38–41). -/
structure AnalyticsRequest where
  repo_name : String
  owner : String
  activity_data : List (String × Json)

/-- Outcome of the `call_mistral_api` transport call (lines 129–142): the
returned message text, or any raised exception (connection error, timeout,
non-2xx status, missing response fields), carrying `str(e)`. -/
inductive MistralOutcome where
  | ok (text : String) : MistralOutcome
  | error (msg : String) : MistralOutcome

/-- The dict returned by the `analyze_with_ai` endpoint. -/
structure AnalyzeResponse where
  success : Bool
  error : Option String
  analysis : Json
  recommendations : Json
  insights : Json
  summary : Json
deriving DecidableEq

/-- `generate_fallback_analysis` (lines 176–177). -/
def generate_fallback_analysis (data : List (String × Json)) : String :=
  "Проект " ++ pyStr ((List.lookup "repo_name" data).getD .null) ++
  " показывает индекс активности " ++
  pyStr ((List.lookup "activity_index" data).getD (.num 0)) ++ "%."

/-- `generate_fallback_recommendations` (lines 179–180). -/
def generate_fallback_recommendations : List String :=
  ["Увеличьте частоту коммитов", "Закройте устаревшие Issues"]

/-- `str(KeyError(k))` for the first key (in access order, lines 74–77)
missing from the parsed result. -/
def keyErrorMsg (d : List (String × Json)) : String :=
  if (List.lookup "analysis" d).isNone then sQuote ++ "analysis" ++ sQuote
  else if (List.lookup "recommendations" d).isNone then sQuote ++ "recommendations" ++ sQuote
  else if (List.lookup "insights" d).isNone then sQuote ++ "insights" ++ sQuote
  else sQuote ++ "summary" ++ sQuote

/-- The `except Exception` response of `analyze_with_ai` (lines 80–89). -/
def analyzeErrorResponse (msg : String) (request : AnalyticsRequest) : AnalyzeResponse :=
  { success := false
    error := some msg
    analysis := .str (generate_fallback_analysis request.activity_data)
    recommendations := .arr (generate_fallback_recommendations.map Json.str)
    insights := .obj [("strengths", .arr []), ("weaknesses", .arr []),
                      ("trends", .arr []), ("health_score", .str "0")]
    summary := .str "Ошибка при генерации аналитики" }

/-- `analyze_with_ai` (lines 52–89).  `mistral_api_key` is the
`MISTRAL_API_KEY` environment value; `transport` is the outcome of the
`call_mistral_api` network call (unused when the key is absent, since the
endpoint returns before calling the API). -/
def analyze_with_ai (mistral_api_key : String) (transport : MistralOutcome)
    (request : AnalyticsRequest) : AnalyzeResponse :=
  if mistral_api_key == "" then
    { success := false
      error := some "Mistral API key not configured"
      analysis := .str (generate_fallback_analysis request.activity_data)
      recommendations := .arr (generate_fallback_recommendations.map Json.str)
      insights := .obj [("strengths", .arr []), ("weaknesses", .arr []),
                        ("trends", .arr []), ("health_score", .str "N/A")]
      summary := .str "AI сервис не настроен" }
  else
    match transport with
    | .error msg => analyzeErrorResponse msg request
    | .ok text =>
      let analysis_result := parse_ai_response text
      match List.lookup "analysis" analysis_result,
            List.lookup "recommendations" analysis_result,
            List.lookup "insights" analysis_result,
            List.lookup "summary" analysis_result with
      | some a, some r, some i, some s =>
        { success := true, error := none,
          analysis := a, recommendations := r, insights := i, summary := s }
      | _, _, _, _ => analyzeErrorResponse (keyErrorMsg analysis_result) request

/-- The endpoint's response dict as JSON (field order as in the source;
the `error` key is present exactly on the failure paths). -/
def responseToJson (r : AnalyzeResponse) : Json :=
  .obj ([("success", .bool r.success)] ++
        (match r.error with
         | some e => [("error", Json.str e)]
         | none => []) ++
        [("analysis", r.analysis), ("recommendations", r.recommendations),
         ("insights", r.insights), ("summary", r.summary)])

/-! ## API gateway (`services/api-gateway/main.py`) -/

def GITHUB_SERVICE_URL : String := "http://localhost:8001"
def ANALYTICS_SERVICE_URL : String := "http://localhost:8002"
def DATABASE_SERVICE_URL : String := "http://localhost:8003"

/-- A FastAPI `HTTPException(status_code, detail)`. -/
structure HttpError where
  status_code : Nat
  detail : String
deriving DecidableEq

/-- Outcome of one outbound `requests` call: a response with its status and
decoded JSON body, a timeout, or any other transport failure
(`requests.exceptions.RequestException`, connection refused included). -/
inductive HttpOutcome where
  | resp (status : Nat) (body : Json) : HttpOutcome
  | timeout : HttpOutcome
  | reqError : HttpOutcome

/-- `call_service` (lines 54–78): a 404 response is forwarded as a 404
error; `raise_for_status` turns any other 4xx/5xx into an `HTTPError`
(a `RequestException`), caught as a 502; timeouts become 504 and other
transport failures 502. -/
def call_service (url : String) (o : HttpOutcome) : Except HttpError Json :=
  match o with
  | .resp 404 _ => .error ⟨404, "Resource not found at " ++ url⟩
  | .resp status body =>
    if 400 ≤ status ∧ status < 600 then .error ⟨502, "Service unavailable: " ++ url⟩
    else .ok body
  | .timeout => .error ⟨504, "Service timeout: " ++ url⟩
  | .reqError => .error ⟨502, "Service unavailable: " ++ url⟩

/-- The stages of the gateway pipeline, in order. -/
inductive Stage where
  | fetch : Stage
  | generate : Stage
  | persist : Stage
  | assemble : Stage
deriving DecidableEq

/-- Request body of `POST /api/analyze` (`AnalysisRequest`, lines 47–51). -/
structure GatewayRequest where
  owner : String
  repo_name : String
  start_date : String
  end_date : String

/-- Instrumented outcome of one run of the gateway pipeline: the HTTP
result, the list of stages whose service call was issued, and the body
sent to the database service (when the Persist call was issued). -/
structure GatewayResult where
  result : Except HttpError Json
  stages : List Stage
  saveBody : Option Json

/-- Python `dict.get(k, dflt)`. -/
def pyGet (kvs : List (String × Json)) (k : String) (dflt : Json) : Json :=
  (List.lookup k kvs).getD dflt

/-- Field of a successful JSON-object HTTP result (used to state
properties of the gateway's response). -/
def resultLookup (r : Except HttpError Json) (k : String) : Option Json :=
  match r with
  | .ok (.obj kvs) => List.lookup k kvs
  | _ => none

/-- `dict.get` through a JSON value.  (On a non-mapping Python raises
`AttributeError`; the surrounding code paths that could reach that case are
modelled explicitly in `analyze_repository`.) -/
def pyGetJ (j : Json) (k : String) (dflt : Json) : Json :=
  match j with
  | .obj kvs => pyGet kvs k dflt
  | _ => dflt

/-- Python truthiness of an optional JSON value (`if not x`). -/
def pyTruthy : Option Json → Bool
  | none => false
  | some .null => false
  | some (.bool b) => b
  | some (.num n) => !(n == 0)
  | some (.str s) => !(s == "")
  | some (.arr xs) => !xs.isEmpty
  | some (.obj kvs) => !kvs.isEmpty

/-- The body sent to `POST /stats/save` (lines 179–196). -/
def save_payload (req : GatewayRequest) (gkvs akvs : List (String × Json)) : Json :=
  let commit_stats := pyGet gkvs "commit_stats" (.obj [])
  .obj [("owner", .str req.owner),
        ("repo_name", .str req.repo_name),
        ("total_commits", pyGetJ commit_stats "total_commits" (.num 0)),
        ("total_contributors", pyGet gkvs "total_contributors" (.num 0)),
        ("avg_commits_per_day", pyGetJ commit_stats "average_commits_per_day" (.num 0)),
        ("analysis_period_days", pyGet gkvs "analysis_period_days" (.num 0)),
        ("activity_index", pyGet gkvs "activity_index" (.num 0)),
        ("additional_data",
          .obj [("ai_analysis_available", pyGet akvs "success" (.bool false))])]

/-- Step 4 of the gateway pipeline (lines 201–219). -/
def assemble_result (req : GatewayRequest) (gkvs akvs skvs : List (String × Json)) : Json :=
  .obj [("success", .bool true),
        ("repo_info", pyGet gkvs "repo_info" .null),
        ("commit_stats", pyGet gkvs "commit_stats" .null),
        ("contributors", pyGet gkvs "contributors" .null),
        ("total_contributors", pyGet gkvs "total_contributors" .null),
        ("issue_stats", pyGet gkvs "issue_stats" .null),
        ("pr_stats", pyGet gkvs "pr_stats" .null),
        ("language_stats", pyGet gkvs "language_stats" .null),
        ("analysis_period_days", pyGet gkvs "analysis_period_days" .null),
        ("activity_index", pyGet gkvs "activity_index" .null),
        ("start_date", .str req.start_date),
        ("end_date", .str req.end_date),
        ("ai_analysis", pyGet akvs "analysis" (.str "")),
        ("ai_recommendations", pyGet akvs "recommendations" (.arr [])),
        ("ai_insights", pyGet akvs "insights" (.obj [])),
        ("ai_summary", pyGet akvs "summary" (.str "")),
        ("database_record_id", pyGet skvs "record_id" .null)]

/-- Abbreviated `str(e)` of the `AttributeError` raised when `.get` is
called on a non-mapping response body (caught by the outer
`except Exception` and surfaced as a 500). -/
def attr_error_detail : String := "AttributeError"

/-- The gateway pipeline `POST /api/analyze` (`analyze_repository`,
lines 138–229).  The three `HttpOutcome` parameters are the behaviours of
the GitHub, analytics and database services for this run; an outcome
parameter is consulted only when the pipeline actually issues that call. -/
def analyze_repository (req : GatewayRequest)
    (github analytics database : HttpOutcome) : GatewayResult :=
  match call_service (GITHUB_SERVICE_URL ++ "/analyze") github with
  | .error e => ⟨.error e, [.fetch], none⟩
  | .ok github_response =>
    match github_response with
    | .obj gkvs =>
      if !pyTruthy (List.lookup "success" gkvs) then
        ⟨.error ⟨404, "GitHub data not found or analysis failed"⟩, [.fetch], none⟩
      else
        match call_service (ANALYTICS_SERVICE_URL ++ "/analyze") analytics with
        | .error e => ⟨.error e, [.fetch, .generate], none⟩
        | .ok analytics_response =>
          match analytics_response with
          | .obj akvs =>
            let body := save_payload req gkvs akvs
            match call_service (DATABASE_SERVICE_URL ++ "/stats/save") database with
            | .error e => ⟨.error e, [.fetch, .generate, .persist], some body⟩
            | .ok save_response =>
              match save_response with
              | .obj skvs =>
                ⟨.ok (assemble_result req gkvs akvs skvs),
                 [.fetch, .generate, .persist, .assemble], some body⟩
              | _ => ⟨.error ⟨500, attr_error_detail⟩,
                      [.fetch, .generate, .persist], some body⟩
          | _ => ⟨.error ⟨500, attr_error_detail⟩, [.fetch, .generate], none⟩
    | _ => ⟨.error ⟨500, attr_error_detail⟩, [.fetch], none⟩

/-- The fetch stage of the pipeline fails: the GitHub call raises, or it
returns a body whose `success` field is falsy. -/
def gatewayFetchFails (g : HttpOutcome) : Bool :=
  match call_service (GITHUB_SERVICE_URL ++ "/analyze") g with
  | .error _ => true
  | .ok (.obj kvs) => !pyTruthy (List.lookup "success" kvs)
  | .ok _ => false

/-- The client-facing error corresponding to a failed fetch stage. -/
def expectedFetchError (g : HttpOutcome) : HttpError :=
  match call_service (GITHUB_SERVICE_URL ++ "/analyze") g with
  | .error e => e
  | .ok _ => ⟨404, "GitHub data not found or analysis failed"⟩

/-! ## GitHub service metrics (`services/github-service/main.py`)

The derived numbers of `analyze_repository` (lines 145–205).  Python float
arithmetic is modelled by exact rationals; `round(x, 2)` by
round-half-to-even at the second decimal. -/

/-- Round a rational to the nearest integer with ties to even (Python's
`round`), written on the numerator/denominator so that it evaluates inside
the kernel: `n = ⌊q⌋`, `r/den` the fractional part, compared with `1/2` by
cross-multiplication. -/
def roundHalfEven (q : ℚ) : Int :=
  let n := q.num.fdiv (q.den : Int)
  let r := q.num - n * (q.den : Int)
  if 2 * r < (q.den : Int) then n
  else if (q.den : Int) < 2 * r then n + 1
  else if n % 2 = 0 then n else n + 1

def round2 (q : ℚ) : ℚ := ((roundHalfEven (q * 100) : Int) : ℚ) / 100

/-- `days = (end_date - start_date).days + 1` (line 150): the parsed
datetimes are modelled by their epoch seconds; `timedelta.days` floors the
difference over a day's 86400 seconds. -/
def windowDays (startSec endSec : Int) : Int :=
  (endSec - startSec).fdiv 86400 + 1

/-- Lines 182–183, 202: `subscribers = subscribers_count if > 0 else 1;
activity_index = round((total_commits / subscribers) * 100, 2)`. -/
def activity_index_calc (total_commits subscribers_count : Nat) : ℚ :=
  let subscribers : Nat := if subscribers_count > 0 then subscribers_count else 1
  round2 (((total_commits : ℚ) / (subscribers : ℚ)) * 100)

/-- The derived numeric fields of the GitHub service's analysis result. -/
structure AnalyzeMetrics where
  analysis_period_days : Int
  average_commits_per_day : ℚ
  activity_index : ℚ
deriving DecidableEq

/-- The metric computation of the GitHub service's `analyze_repository`
(lines 148–150, 179–183, 192, 201–202). -/
def analyze_metrics (startSec endSec : Int)
    (total_commits subscribers_count : Nat) : AnalyzeMetrics :=
  let days := windowDays startSec endSec
  { analysis_period_days := days
    average_commits_per_day :=
      round2 (if 0 < days then (total_commits : ℚ) / (days : ℚ) else 0)
    activity_index := activity_index_calc total_commits subscribers_count }

/-! ## Database service (`services/database-service/main.py`)

The `repo_stats` table: `id INTEGER PRIMARY KEY AUTOINCREMENT`, a
`CURRENT_TIMESTAMP` column, and the data columns of `StatsSaveRequest`.
`additional_data` is stored as its serialized text (`json.dumps`), carried
here as an opaque optional string. -/

structure StatsRecord where
  id : Nat
  owner : String
  repo_name : String
  total_commits : Int
  total_contributors : Int
  avg_commits_per_day : ℚ
  analysis_period_days : Int
  activity_index : ℚ
  timestamp : Nat
  additional_data : Option String
deriving DecidableEq

/-- Request body of `POST /stats/save` (lines 38–46), with
`additional_data` already serialized. -/
structure StatsSaveRequest where
  owner : String
  repo_name : String
  total_commits : Int
  total_contributors : Int
  avg_commits_per_day : ℚ
  analysis_period_days : Int
  activity_index : ℚ
  additional_data : Option String

/-- The `repo_stats` table: rows in insertion order plus the AUTOINCREMENT
counter (strictly greater than every id ever assigned). -/
structure StatsDb where
  next_id : Nat
  rows : List StatsRecord
deriving DecidableEq

def StatsDb.empty : StatsDb := ⟨1, []⟩

/-- `save_statistics` (lines 128–169): one atomic INSERT; returns the new
state and `cursor.lastrowid`.  `now` is the `CURRENT_TIMESTAMP` value the
database assigns to the row. -/
def save_statistics (db : StatsDb) (req : StatsSaveRequest) (now : Nat) :
    StatsDb × Nat :=
  let r : StatsRecord :=
    { id := db.next_id, owner := req.owner, repo_name := req.repo_name
      total_commits := req.total_commits
      total_contributors := req.total_contributors
      avg_commits_per_day := req.avg_commits_per_day
      analysis_period_days := req.analysis_period_days
      activity_index := req.activity_index
      timestamp := now, additional_data := req.additional_data }
  (⟨db.next_id + 1, db.rows ++ [r]⟩, db.next_id)

/-- Insertion step of `ORDER BY timestamp DESC` (ties keep relative row
order, which SQL leaves unspecified; the theorems below only rely on
strictly larger timestamps sorting first). -/
def insertTsDesc (v : StatsRecord) : List StatsRecord → List StatsRecord
  | [] => [v]
  | y :: ys => if y.timestamp < v.timestamp then v :: y :: ys else y :: insertTsDesc v ys

def sortTsDesc : List StatsRecord → List StatsRecord
  | [] => []
  | x :: xs => insertTsDesc x (sortTsDesc xs)

/-- `GET /stats/repo/{owner}/{repo_name}` (`get_repo_history`,
lines 217–256): `SELECT * FROM repo_stats WHERE owner = ? AND
repo_name = ? ORDER BY timestamp DESC LIMIT ?`. -/
def get_repo_history (db : StatsDb) (owner repo_name : String) (limit : Nat) :
    List StatsRecord :=
  (sortTsDesc (db.rows.filter fun r =>
    r.owner == owner && r.repo_name == repo_name)).take limit

/-! ## Auxiliary predicates used by theorem statements -/

/-- The code-fence wrapping of a payload considered by the spec:
`` ```json `` before, `` ``` `` after. -/
def wrapJson (t : String) : String := "```json\n" ++ t ++ "\n```"

def isStrVal : Option Json → Bool
  | some (.str _) => true
  | _ => false

/-- The parsed object matches the schema requested in the prompt:
`summary` and `analysis` strings, `insights` a record, `recommendations`
a list. -/
def schemaOk (d : List (String × Json)) : Bool :=
  isStrVal (List.lookup "summary" d) && isStrVal (List.lookup "analysis" d) &&
  isObjVal (List.lookup "insights" d) && isArrVal (List.lookup "recommendations" d)

/-! ### Concrete inputs used by witnesses and counterexamples -/

/-- Model response used by the C1 counterexample: the JSON span parses,
`insights` and `recommendations` are well-typed, `summary` is absent. -/
def c1text : String :=
  "\x7b\"analysis\": \"x\", \"insights\": \x7b\"h\": 1\x7d, \"recommendations\": [\"r\"]\x7d"

def c1req : AnalyticsRequest :=
  ⟨"demo", "owner", [("repo_name", Json.str "demo"), ("activity_index", Json.num 5)]⟩

/-- Input for the C1 witness: well-formed `summary`/`analysis`, mistyped
`insights`, well-typed `recommendations`. -/
def c1wText : String :=
  "\x7b\"summary\": \"s\", \"analysis\": \"a\", \"insights\": 3, \"recommendations\": [\"r\"]\x7d"

def c1wD : List (String × Json) :=
  [("summary", Json.str "s"), ("analysis", Json.str "a"), ("insights", Json.num 3),
   ("recommendations", Json.arr [Json.str "r"])]

/-- Valid JSON matching the requested schema whose `summary` string
contains a code-fence marker. -/
def c2cexText : String :=
  "\x7b\"summary\": \"a```b\", \"analysis\": \"x\", \"insights\": \x7b\"h\": 1\x7d, \"recommendations\": [\"r\"]\x7d"

def c2cexD : List (String × Json) :=
  [("summary", Json.str "a```b"), ("analysis", Json.str "x"),
   ("insights", Json.obj [("h", Json.num 1)]), ("recommendations", Json.arr [Json.str "r"])]

/-- Schema-conforming plain JSON input for the C2 witness. -/
def c2wText : String :=
  "\x7b\"summary\": \"s\", \"analysis\": \"a\", \"insights\": \x7b\x7d, \"recommendations\": []\x7d"

def c2wD : List (String × Json) :=
  [("summary", Json.str "s"), ("analysis", Json.str "a"), ("insights", Json.obj []),
   ("recommendations", Json.arr [])]

def c10row : StatsRecord := ⟨1, "octocat", "hello", 10, 2, 1, 7, 50, 100, none⟩

def c10db : StatsDb := ⟨2, [c10row]⟩

def c10req : StatsSaveRequest := ⟨"octocat", "hello", 120, 3, 4, 30, 300, none⟩

/-- `text` contains no code-fence marker `` ``` ``. -/
def fenceFree : List Char → Bool
  | [] => true
  | c :: cs => !(leadsWith fence3 (c :: cs)) && fenceFree cs

/-! ## Lemmas: dict insertion and the repair step -/

theorem lookup_objInsert_self (k : String) (v : Json) (d : List (String × Json)) :
    List.lookup k (objInsert k v d) = some v := by
  induction d with
  | nil => simp [objInsert, List.lookup]
  | cons p rest ih =>
    obtain ⟨k', v'⟩ := p
    by_cases h : k' = k
    · subst h; simp [objInsert, List.lookup]
    · simp [objInsert, List.lookup, beq_eq_false_iff_ne.mpr h,
        beq_eq_false_iff_ne.mpr (Ne.symm h), ih]

theorem lookup_objInsert_ne (k k' : String) (v : Json) (d : List (String × Json))
    (h : k' ≠ k) : List.lookup k' (objInsert k v d) = List.lookup k' d := by
  induction d with
  | nil => simp [objInsert, List.lookup, beq_eq_false_iff_ne.mpr h]
  | cons p rest ih =>
    obtain ⟨ka, va⟩ := p
    by_cases hka : ka = k
    · subst hka
      simp [objInsert, List.lookup, beq_eq_false_iff_ne.mpr h]
    · by_cases hk' : k' = ka
      · subst hk'
        simp [objInsert, List.lookup, beq_eq_false_iff_ne.mpr hka]
      · simp [objInsert, List.lookup, beq_eq_false_iff_ne.mpr hka,
          beq_eq_false_iff_ne.mpr hk', ih]

theorem lookup_insights_repairData (d : List (String × Json)) :
    List.lookup "insights" (repairData d) =
      if isObjVal (List.lookup "insights" d) then List.lookup "insights" d
      else some default_insights := by
  have hne : ("insights" : String) ≠ "recommendations" := by decide
  unfold repairData
  by_cases h1 : isObjVal (List.lookup "insights" d)
  · simp only [h1, if_true]
    by_cases h2 : isArrVal (List.lookup "recommendations" d)
    · simp [h2]
    · simp [h2, lookup_objInsert_ne _ _ _ _ hne]
  · simp only [h1, if_false, Bool.false_eq_true]
    have hself : List.lookup "insights" (objInsert "insights" default_insights d) =
        some default_insights := lookup_objInsert_self _ _ _
    have hrec : List.lookup "recommendations" (objInsert "insights" default_insights d) =
        List.lookup "recommendations" d :=
      lookup_objInsert_ne _ _ _ _ (by decide)
    by_cases h2 : isArrVal (List.lookup "recommendations" d)
    · simp [hrec, h2, hself]
    · simp [hrec, h2, hself, lookup_objInsert_ne _ _ _ _ hne]

theorem lookup_recs_repairData (d : List (String × Json)) :
    List.lookup "recommendations" (repairData d) =
      if isArrVal (List.lookup "recommendations" d) then List.lookup "recommendations" d
      else some default_recommendations := by
  unfold repairData
  by_cases h1 : isObjVal (List.lookup "insights" d)
  · simp only [h1, if_true]
    by_cases h2 : isArrVal (List.lookup "recommendations" d)
    · simp [h2]
    · simp [h2, lookup_objInsert_self]
  · simp only [h1, if_false, Bool.false_eq_true]
    have hrec : List.lookup "recommendations" (objInsert "insights" default_insights d) =
        List.lookup "recommendations" d :=
      lookup_objInsert_ne _ _ _ _ (by decide)
    by_cases h2 : isArrVal (List.lookup "recommendations" d)
    · simp [hrec, h2]
    · simp [hrec, h2, lookup_objInsert_self]

theorem lookup_repairData_of_ne (d : List (String × Json)) (k : String)
    (h1 : k ≠ "insights") (h2 : k ≠ "recommendations") :
    List.lookup k (repairData d) = List.lookup k d := by
  unfold repairData
  by_cases c1 : isObjVal (List.lookup "insights" d) = true
  · rw [if_pos c1]
    by_cases c2 : isArrVal (List.lookup "recommendations" d) = true
    · rw [if_pos c2]
    · rw [if_neg c2, lookup_objInsert_ne _ _ _ _ h2]
  · rw [if_neg c1]
    by_cases c2 : isArrVal (List.lookup "recommendations"
        (objInsert "insights" default_insights d)) = true
    · rw [if_pos c2, lookup_objInsert_ne _ _ _ _ h1]
    · rw [if_neg c2, lookup_objInsert_ne _ _ _ _ h2, lookup_objInsert_ne _ _ _ _ h1]

theorem parse_insights_shape (t : String) :
    ∃ kvs, List.lookup "insights" (parse_ai_response t) = some (.obj kvs) := by
  unfold parse_ai_response
  cases h : extractedObj t with
  | none =>
    exact ⟨[("strengths", .arr []), ("weaknesses", .arr []), ("trends", .arr []),
            ("health_score", .str "5")], rfl⟩
  | some d =>
    rw [lookup_insights_repairData]
    cases hv : List.lookup "insights" d with
    | none =>
      simp [isObjVal]
      exact ⟨_, rfl⟩
    | some j =>
      cases j <;> simp [isObjVal] <;> exact ⟨_, rfl⟩

theorem parse_recs_shape (t : String) :
    ∃ xs, List.lookup "recommendations" (parse_ai_response t) = some (.arr xs) := by
  unfold parse_ai_response
  cases h : extractedObj t with
  | none => exact ⟨[.str "Продолжайте мониторинг репозитория"], rfl⟩
  | some d =>
    rw [lookup_recs_repairData]
    cases hv : List.lookup "recommendations" d with
    | none =>
      simp [isArrVal]
      exact ⟨_, rfl⟩
    | some j =>
      cases j <;> simp [isArrVal] <;> exact ⟨_, rfl⟩

/-! ## Claims C1, C3, C5 (analytics normalization and endpoint) -/



/-- C1 (counterexample): a response whose JSON span parses with a correct
`insights` record and `recommendations` list but no `summary` field does
not get a partial repair from the endpoint: `analyze_with_ai` returns the
full fallback (`success = false`) and the correctly parsed
`recommendations` list `["r"]` is *not* preserved (it is replaced by the
two-item fallback list), refuting the claimed field-wise repair. -/
theorem c1_counterexample :
    extractedObj c1text =
      some [("analysis", Json.str "x"), ("insights", Json.obj [("h", Json.num 1)]),
            ("recommendations", Json.arr [Json.str "r"])] ∧
    (analyze_with_ai "key" (.ok c1text) c1req).success = false ∧
    (analyze_with_ai "key" (.ok c1text) c1req).recommendations =
      Json.arr [Json.str "Увеличьте частоту коммитов", Json.str "Закройте устаревшие Issues"] ∧
    (analyze_with_ai "key" (.ok c1text) c1req).recommendations ≠ Json.arr [Json.str "r"] := by
  refine ⟨by decide, by decide, by decide, by decide⟩

/-- C1 (amended): for every model response whose extracted JSON span parses
as an object `d`, `parse_ai_response` substitutes the fixed defaults for
exactly a missing/mistyped `insights` record and a missing/mistyped
`recommendations` list, and preserves every other parsed field unchanged;
`summary` and `analysis` are never defaulted — if `summary` is absent the
endpoint instead returns the full fallback response (`success = false`),
all-or-nothing. -/
theorem c1_partial_repair_amended (text : String) (d : List (String × Json))
    (h : extractedObj text = some d) :
    (List.lookup "insights" (parse_ai_response text) =
      if isObjVal (List.lookup "insights" d) then List.lookup "insights" d
      else some default_insights) ∧
    (List.lookup "recommendations" (parse_ai_response text) =
      if isArrVal (List.lookup "recommendations" d) then List.lookup "recommendations" d
      else some default_recommendations) ∧
    (∀ k : String, k ≠ "insights" → k ≠ "recommendations" →
      List.lookup k (parse_ai_response text) = List.lookup k d) ∧
    (∀ (key : String) (req : AnalyticsRequest), (key == "") = false →
      List.lookup "summary" d = none →
      (analyze_with_ai key (.ok text) req).success = false) := by
  have hp : parse_ai_response text = repairData d := by
    unfold parse_ai_response; rw [h]
  refine ⟨?_, ?_, ?_, ?_⟩
  · rw [hp, lookup_insights_repairData]
  · rw [hp, lookup_recs_repairData]
  · intro k h1 h2
    rw [hp, lookup_repairData_of_ne d k h1 h2]
  · intro key req hkey hs
    have hsum : List.lookup "summary" (parse_ai_response text) = none := by
      rw [hp, lookup_repairData_of_ne d "summary" (by decide) (by decide), hs]
    obtain ⟨ikvs, hi⟩ := parse_insights_shape text
    obtain ⟨rxs, hr⟩ := parse_recs_shape text
    unfold analyze_with_ai
    rw [if_neg (by simp [hkey])]
    cases ha : List.lookup "analysis" (parse_ai_response text) with
    | none =>
      simp only [ha, hi, hr, hsum]
      rfl
    | some a =>
      simp only [ha, hi, hr, hsum]
      rfl



theorem c1_partial_repair_witness :
    extractedObj c1wText = some c1wD ∧
    List.lookup "insights" (parse_ai_response c1wText) = some default_insights ∧
    List.lookup "recommendations" (parse_ai_response c1wText) =
      some (Json.arr [Json.str "r"]) := by
  have h := c1_partial_repair_amended c1wText c1wD (by decide)
  exact ⟨by decide, h.1.trans (by decide), h.2.1.trans (by decide)⟩

/-- C3: for every response text from which no JSON object span can be
parsed, the endpoint (with a configured key) still reports success, stores
the raw text as `analysis`, and returns the default `insights` and
`recommendations`; the parse failure never propagates. -/
theorem c3_non_json_fallback (key text : String) (req : AnalyticsRequest)
    (hk : (key == "") = false) (h : extractedObj text = none) :
    (analyze_with_ai key (.ok text) req).success = true ∧
    (analyze_with_ai key (.ok text) req).analysis = Json.str text ∧
    (analyze_with_ai key (.ok text) req).insights = default_insights ∧
    (analyze_with_ai key (.ok text) req).recommendations = default_recommendations := by
  have hp : parse_ai_response text = default_res text := by
    unfold parse_ai_response; rw [h]
  have l1 : List.lookup "analysis" (default_res text) = some (Json.str text) := rfl
  have l2 : List.lookup "recommendations" (default_res text) = some default_recommendations := rfl
  have l3 : List.lookup "insights" (default_res text) = some default_insights := rfl
  have l4 : List.lookup "summary" (default_res text) = some (Json.str "Анализ завершен") := rfl
  unfold analyze_with_ai
  rw [if_neg (by simp [hk])]
  simp only [hp, l1, l2, l3, l4]
  exact ⟨trivial, trivial, trivial, trivial⟩

theorem c3_non_json_fallback_witness :
    ("key" == "") = false ∧ extractedObj "Sorry, I cannot produce JSON today." = none ∧
    (analyze_with_ai "key" (.ok "Sorry, I cannot produce JSON today.") c1req).success = true ∧
    (analyze_with_ai "key" (.ok "Sorry, I cannot produce JSON today.") c1req).analysis =
      Json.str "Sorry, I cannot produce JSON today." := by
  have h := c3_non_json_fallback "key" "Sorry, I cannot produce JSON today." c1req
    (by decide) (by decide)
  exact ⟨by decide, by decide, h.1, h.2.1⟩

/-- C5: on every path of the analytics endpoint — missing API key,
transport failure, and every parse outcome of a transport success — the
returned value has `insights` as a record and `recommendations` as a
list. -/
theorem c5_response_shape_invariant (key : String) (transport : MistralOutcome)
    (req : AnalyticsRequest) :
    (∃ kvs, (analyze_with_ai key transport req).insights = Json.obj kvs) ∧
    (∃ xs, (analyze_with_ai key transport req).recommendations = Json.arr xs) := by
  unfold analyze_with_ai
  by_cases hk : (key == "") = true
  · rw [if_pos hk]
    exact ⟨⟨_, rfl⟩, ⟨_, rfl⟩⟩
  · rw [if_neg hk]
    cases transport with
    | error msg => exact ⟨⟨_, rfl⟩, ⟨_, rfl⟩⟩
    | ok text =>
      obtain ⟨ikvs, hi⟩ := parse_insights_shape text
      obtain ⟨rxs, hr⟩ := parse_recs_shape text
      cases ha : List.lookup "analysis" (parse_ai_response text) with
      | none =>
        simp only [ha, hi, hr]
        cases hs : List.lookup "summary" (parse_ai_response text) <;>
          exact ⟨⟨_, rfl⟩, ⟨_, rfl⟩⟩
      | some a =>
        cases hs : List.lookup "summary" (parse_ai_response text) with
        | none =>
          simp only [ha, hi, hr, hs]
          exact ⟨⟨_, rfl⟩, ⟨_, rfl⟩⟩
        | some s =>
          simp only [ha, hi, hr, hs]
          exact ⟨⟨ikvs, rfl⟩, ⟨rxs, rfl⟩⟩

/-! ## Lemmas: fence stripping, trimming and span extraction -/

theorem sfAux_congr : ∀ f g : Nat, ∀ cs : List Char,
    cs.length ≤ f → cs.length ≤ g → sfAux f cs = sfAux g cs := by
  intro f
  induction f with
  | zero =>
    intro g cs hf _
    have : cs = [] := List.length_eq_zero.mp (Nat.le_zero.mp hf)
    subst this
    cases g <;> rfl
  | succ f ih =>
    intro g cs hf hg
    cases cs with
    | nil => cases g <;> rfl
    | cons c cs' =>
      cases g with
      | zero => simp at hg
      | succ g' =>
        have hf' : cs'.length ≤ f := by simpa using hf
        have hg' : cs'.length ≤ g' := by simpa using hg
        show sfAux (f + 1) (c :: cs') = sfAux (g' + 1) (c :: cs')
        simp only [sfAux]
        by_cases h7 : leadsWith fence7 (c :: cs') = true
        · simp only [h7, if_true]
          exact ih g' (cs'.drop 6) (le_trans (by simp) hf') (le_trans (by simp) hg')
        · simp only [h7, if_false, Bool.false_eq_true]
          by_cases h3 : leadsWith fence3 (c :: cs') = true
          · simp only [h3, if_true]
            exact ih g' (cs'.drop 2) (le_trans (by simp) hf') (le_trans (by simp) hg')
          · simp only [h3, if_false, Bool.false_eq_true]
            exact congrArg (c :: ·) (ih g' cs' hf' hg')

/-- One-step equation for `stripFences`. -/
theorem stripFences_cons (c : Char) (cs : List Char) :
    stripFences (c :: cs) =
      if leadsWith fence7 (c :: cs) then stripFences (cs.drop 6)
      else if leadsWith fence3 (c :: cs) then stripFences (cs.drop 2)
      else c :: stripFences cs := by
  show sfAux (cs.length + 1) (c :: cs) = _
  simp only [sfAux]
  by_cases h7 : leadsWith fence7 (c :: cs) = true
  · simp only [h7, if_true]
    exact sfAux_congr _ _ _ (by simp) (le_refl _)
  · simp only [h7, if_false, Bool.false_eq_true]
    by_cases h3 : leadsWith fence3 (c :: cs) = true
    · simp only [h3, if_true]
      exact sfAux_congr _ _ _ (by simp) (le_refl _)
    · simp only [h3, if_false, Bool.false_eq_true]
      rfl

theorem leadsWith_length : ∀ p cs : List Char, leadsWith p cs = true → p.length ≤ cs.length := by
  intro p
  induction p with
  | nil => intro cs _; simp
  | cons a ps ih =>
    intro cs h
    cases cs with
    | nil => exact absurd h (by simp [leadsWith])
    | cons c cs' =>
      simp only [leadsWith, Bool.and_eq_true] at h
      simpa using ih cs' h.2

theorem leadsWith_append_left : ∀ p q cs : List Char,
    leadsWith (p ++ q) cs = true → leadsWith p cs = true := by
  intro p
  induction p with
  | nil => intro q cs _; rfl
  | cons a ps ih =>
    intro q cs h
    cases cs with
    | nil => exact absurd h (by simp [leadsWith])
    | cons c cs' =>
      simp only [List.cons_append, leadsWith, Bool.and_eq_true] at h
      simp only [leadsWith, Bool.and_eq_true]
      exact ⟨h.1, ih q cs' h.2⟩

theorem leadsWith_fence3_of_fence7 (cs : List Char)
    (h : leadsWith fence7 cs = true) : leadsWith fence3 cs = true :=
  leadsWith_append_left fence3 ['j', 's', 'o', 'n'] cs h

/-- A pattern containing no newline matches an initial segment of
`xs ++ '\n' :: ys` exactly when it matches one of `xs`. -/
theorem leadsWith_append_nl (p : List Char) (hp : ∀ c ∈ p, ¬ c = '\n') :
    ∀ xs ys : List Char, leadsWith p (xs ++ '\n' :: ys) = leadsWith p xs := by
  induction p with
  | nil => intro xs ys; rfl
  | cons a ps ih =>
    intro xs ys
    cases xs with
    | nil =>
      have ha : (a == '\n') = false :=
        beq_eq_false_iff_ne.mpr (hp a (List.mem_cons_self a ps))
      simp [leadsWith, ha]
    | cons x xs' =>
      have hrec := ih (fun c hc => hp c (List.mem_cons_of_mem a hc)) xs' ys
      simp only [List.cons_append, leadsWith, List.append_eq, hrec]

/-- Appending the trailing fence `"\n```"` commutes with fence stripping:
the newline blocks any fence match across the boundary, and the trailing
`` ``` `` itself is erased leaving the newline. -/
theorem stripFences_append_tail (cs : List Char) :
    stripFences (cs ++ ['\n', '`', '`', '`']) = stripFences cs ++ ['\n'] := by
  suffices h : ∀ n : Nat, ∀ cs : List Char, cs.length = n →
      stripFences (cs ++ ['\n', '`', '`', '`']) = stripFences cs ++ ['\n'] from
    h cs.length cs rfl
  intro n
  induction n using Nat.strong_induction_on with
  | _ n ih =>
    intro cs hlen
    subst hlen
    cases cs with
    | nil => decide
    | cons c cs' =>
      have h7nl : ∀ c ∈ fence7, ¬ c = '\n' := by decide
      have h3nl : ∀ c ∈ fence3, ¬ c = '\n' := by decide
      have e7 : leadsWith fence7 (c :: (cs' ++ ['\n', '`', '`', '`'])) =
          leadsWith fence7 (c :: cs') := by
        have h := leadsWith_append_nl fence7 h7nl (c :: cs') ['`', '`', '`']
        simpa using h
      have e3 : leadsWith fence3 (c :: (cs' ++ ['\n', '`', '`', '`'])) =
          leadsWith fence3 (c :: cs') := by
        have h := leadsWith_append_nl fence3 h3nl (c :: cs') ['`', '`', '`']
        simpa using h
      rw [show (c :: cs') ++ ['\n', '`', '`', '`'] =
            c :: (cs' ++ ['\n', '`', '`', '`']) from rfl,
          stripFences_cons, stripFences_cons c cs']
      by_cases h7 : leadsWith fence7 (c :: cs') = true
      · rw [if_pos (by rw [e7]; exact h7), if_pos h7]
        have hlen7 : 7 ≤ cs'.length + 1 := by
          have h := leadsWith_length fence7 (c :: cs') h7
          simpa [fence7] using h
        rw [List.drop_append_of_le_length (by omega : 6 ≤ cs'.length)]
        exact ih (cs'.drop 6).length (by simp; omega) (cs'.drop 6) rfl
      · rw [if_neg (by rw [e7]; exact h7), if_neg h7]
        by_cases h3 : leadsWith fence3 (c :: cs') = true
        · rw [if_pos (by rw [e3]; exact h3), if_pos h3]
          have hlen3 : 3 ≤ cs'.length + 1 := by
            have h := leadsWith_length fence3 (c :: cs') h3
            simpa [fence3] using h
          rw [List.drop_append_of_le_length (by omega : 2 ≤ cs'.length)]
          exact ih (cs'.drop 2).length (by simp; omega) (cs'.drop 2) rfl
        · rw [if_neg (by rw [e3]; exact h3), if_neg h3]
          rw [ih cs'.length (by simp) cs' rfl]
          rfl

/-- A fence-free text is unchanged by fence stripping. -/
theorem stripFences_of_fenceFree : ∀ cs : List Char,
    fenceFree cs = true → stripFences cs = cs := by
  intro cs
  induction cs with
  | nil => intro _; rfl
  | cons c cs' ih =>
    intro h
    simp only [fenceFree, Bool.and_eq_true, Bool.not_eq_eq_eq_not, Bool.not_true] at h
    have h3 : leadsWith fence3 (c :: cs') = false := h.1
    have h7 : leadsWith fence7 (c :: cs') = false := by
      cases hc : leadsWith fence7 (c :: cs') with
      | false => rfl
      | true => rw [leadsWith_fence3_of_fence7 _ hc] at h3; exact absurd h3 (by simp)
    rw [stripFences_cons, if_neg (by simp [h7]), if_neg (by simp [h3])]
    rw [ih h.2]

theorem pyStrip_cons_space (c : Char) (cs : List Char) (h : isPySpace c = true) :
    pyStrip (c :: cs) = pyStrip cs := by
  simp [pyStrip, List.dropWhile_cons, h]

theorem pyStrip_append_space (b : Char) (cs : List Char) (h : isPySpace b = true) :
    pyStrip (cs ++ [b]) = pyStrip cs := by
  unfold pyStrip
  rw [List.dropWhile_append]
  cases hd : (cs.dropWhile isPySpace).isEmpty with
  | true =>
    have : cs.dropWhile isPySpace = [] := by
      simpa [List.isEmpty_iff] using hd
    simp [this, List.dropWhile, h]
  | false =>
    simp only [hd, Bool.false_eq_true, if_false]
    rw [List.reverse_append]
    simp [List.dropWhile, h]

/-- On a text that starts with `{` and ends with `}`, the greedy span
search returns the whole text. -/
theorem findJsonSpan_braces (cs : List Char)
    (h1 : cs.head? = some '{') (h2 : cs.getLast? = some '}') :
    findJsonSpan cs = some cs := by
  cases cs with
  | nil => simp at h1
  | cons c cs' =>
    have hc : c = '{' := by simpa using h1
    subst hc
    have hrev : ('{' :: cs').reverse.head? = some '}' := by
      rw [List.head?_reverse]
      exact h2
    unfold findJsonSpan
    rw [List.dropWhile_cons]
    simp only [beq_self_eq_true, Bool.not_true, Bool.false_eq_true, if_false]
    cases hr : ('{' :: cs').reverse with
    | nil => simp [hr] at hrev
    | cons r rs =>
      have hrb : r = '}' := by simp [hr] at hrev; exact hrev
      subst hrb
      rw [List.dropWhile_cons]
      simp only [beq_self_eq_true, Bool.not_true, Bool.false_eq_true, if_false]
      have : ('}' :: rs).reverse = '{' :: cs' := by
        rw [← hr, List.reverse_reverse]
      simp [this]

theorem isStrVal_eq (o : Option Json) (h : isStrVal o = true) : ∃ s, o = some (Json.str s) := by
  cases o with
  | none => simp [isStrVal] at h
  | some j => cases j <;> first | exact ⟨_, rfl⟩ | simp [isStrVal] at h

theorem isObjVal_eq (o : Option Json) (h : isObjVal o = true) : ∃ kvs, o = some (Json.obj kvs) := by
  cases o with
  | none => simp [isObjVal] at h
  | some j => cases j <;> first | exact ⟨_, rfl⟩ | simp [isObjVal] at h

theorem isArrVal_eq (o : Option Json) (h : isArrVal o = true) : ∃ xs, o = some (Json.arr xs) := by
  cases o with
  | none => simp [isArrVal] at h
  | some j => cases j <;> first | exact ⟨_, rfl⟩ | simp [isArrVal] at h

/-- Cleaning is invariant under code-fence wrapping: the `` ```json `` and
`` ``` `` markers are erased and the surrounding newlines trimmed. -/
theorem clean_text_wrap (t : String) : clean_text (wrapJson t) = clean_text t := by
  unfold clean_text wrapJson
  have hdata : ("```json\n" ++ t ++ "\n```").data =
      '`' :: '`' :: '`' :: 'j' :: 's' :: 'o' :: 'n' :: '\n' ::
        (t.data ++ ['\n', '`', '`', '`']) := by
    rw [String.data_append, String.data_append, List.append_assoc]
    rfl
  have hc7 : leadsWith fence7 ('`' :: '`' :: '`' :: 'j' :: 's' :: 'o' :: 'n' :: '\n' ::
      (t.data ++ ['\n', '`', '`', '`'])) = true := rfl
  rw [hdata, stripFences_cons, if_pos hc7]
  show pyStrip (stripFences ('\n' :: (t.data ++ ['\n', '`', '`', '`']))) = _
  have h7 : leadsWith fence7 ('\n' :: (t.data ++ ['\n', '`', '`', '`'])) = false := rfl
  have h3 : leadsWith fence3 ('\n' :: (t.data ++ ['\n', '`', '`', '`'])) = false := rfl
  rw [stripFences_cons, if_neg (by simp [h7]), if_neg (by simp [h3]),
    stripFences_append_tail]
  rw [pyStrip_cons_space _ _ (rfl : isPySpace '\n' = true),
    pyStrip_append_space _ _ (rfl : isPySpace '\n' = true)]

/-! ## Claims C2 and C4 (round-trip fidelity and fence invariance) -/

/-- C4: wrapping a payload in markdown code fences does not change the
normalization result, for every payload whose normalization parses to a
JSON object (the "otherwise-valid" payloads). -/
theorem c4_fence_invariance (t : String) (d : List (String × Json))
    (h : extractedObj t = some d) :
    parse_ai_response (wrapJson t) = parse_ai_response t := by
  have hx : extractedObj (wrapJson t) = extractedObj t := by
    unfold extractedObj
    rw [clean_text_wrap]
  unfold parse_ai_response
  rw [hx, h]

theorem c4_fence_invariance_witness :
    extractedObj "\x7b\"a\": 1\x7d" = some [("a", Json.num 1)] ∧
    parse_ai_response (wrapJson "\x7b\"a\": 1\x7d") = parse_ai_response "\x7b\"a\": 1\x7d" :=
  ⟨by decide, c4_fence_invariance "\x7b\"a\": 1\x7d" [("a", Json.num 1)] (by decide)⟩



/-- C2 (counterexample): this response is syntactically valid JSON matching
the requested schema, yet the endpoint returns `summary = "ab"`: the fence
stripping of step 1 deletes the `` ``` `` inside the string literal, so the
returned field differs from the parsed value of the response. -/
theorem c2_counterexample :
    loads c2cexText = some (Json.obj c2cexD) ∧
    schemaOk c2cexD = true ∧
    List.lookup "summary" c2cexD = some (Json.str "a```b") ∧
    (analyze_with_ai "key" (.ok c2cexText) c1req).success = true ∧
    (analyze_with_ai "key" (.ok c2cexText) c1req).summary = Json.str "ab" ∧
    (analyze_with_ai "key" (.ok c2cexText) c1req).summary ≠ Json.str "a```b" := by
  refine ⟨by decide, by decide, by decide, by decide, by decide, by decide⟩

/-- C2 (amended): for every fence-free response text that, after trimming,
is a JSON object document matching the requested schema, the endpoint
reports success and returns the four parsed values exactly (round-trip
fidelity). -/
theorem c2_roundtrip_amended (key text : String) (req : AnalyticsRequest)
    (d : List (String × Json)) (body : List Char)
    (hkey : (key == "") = false)
    (hnf : fenceFree text.data = true)
    (hstrip : pyStrip text.data = body)
    (hhead : body.head? = some '{')
    (hlast : body.getLast? = some '}')
    (hload : loads (String.mk body) = some (Json.obj d))
    (hschema : schemaOk d = true) :
    (analyze_with_ai key (.ok text) req).success = true ∧
    some (analyze_with_ai key (.ok text) req).summary = List.lookup "summary" d ∧
    some (analyze_with_ai key (.ok text) req).analysis = List.lookup "analysis" d ∧
    some (analyze_with_ai key (.ok text) req).insights = List.lookup "insights" d ∧
    some (analyze_with_ai key (.ok text) req).recommendations =
      List.lookup "recommendations" d := by
  simp only [schemaOk, Bool.and_eq_true] at hschema
  obtain ⟨⟨⟨hsum, hana⟩, hins⟩, hrec⟩ := hschema
  obtain ⟨s, hs⟩ := isStrVal_eq _ hsum
  obtain ⟨a, ha⟩ := isStrVal_eq _ hana
  obtain ⟨ik, hi⟩ := isObjVal_eq _ hins
  obtain ⟨rx, hr⟩ := isArrVal_eq _ hrec
  have hclean : clean_text text = body := by
    unfold clean_text
    rw [stripFences_of_fenceFree _ hnf, hstrip]
  have hspan : findJsonSpan (clean_text text) = some body := by
    rw [hclean]
    exact findJsonSpan_braces body hhead hlast
  have hx : extractedObj text = some d := by
    unfold extractedObj
    simp only [hspan, hload]
  have hrepair : repairData d = d := by
    unfold repairData
    rw [if_pos (by rw [hi]; rfl : isObjVal (List.lookup "insights" d) = true),
        if_pos (by rw [hr]; rfl : isArrVal (List.lookup "recommendations" d) = true)]
  have hp : parse_ai_response text = d := by
    unfold parse_ai_response
    rw [hx]
    exact hrepair
  unfold analyze_with_ai
  rw [if_neg (by simp [hkey])]
  simp only [hp, hs, ha, hi, hr]
  exact ⟨trivial, trivial, trivial, trivial, trivial⟩



theorem c2_roundtrip_witness :
    fenceFree c2wText.data = true ∧
    loads (String.mk c2wText.data) = some (Json.obj c2wD) ∧
    schemaOk c2wD = true ∧
    (analyze_with_ai "key" (.ok c2wText) c1req).success = true ∧
    some (analyze_with_ai "key" (.ok c2wText) c1req).summary =
      List.lookup "summary" c2wD := by
  have h := c2_roundtrip_amended "key" c2wText c1req c2wD c2wText.data
    (by decide) (by decide) (by decide) (by decide) (by decide) (by decide) (by decide)
  exact ⟨by decide, by decide, by decide, h.1, h.2.1⟩

/-! ## Claims C6 and C7 (gateway pipeline) -/

/-- C6: when the completion endpoint is unreachable (the analytics service
receives a transport error from Mistral) but the GitHub and database
services respond successfully, the gateway still returns HTTP success;
`ai_summary` is the deterministic fallback string, `ai_recommendations` the
fixed two-item default list, and the Persist stage is still issued with a
save body. -/
theorem c6_ai_unreachable_pipeline (req : GatewayRequest) (areq : AnalyticsRequest)
    (key emsg : String) (hkey : (key == "") = false)
    (gkvs skvs : List (String × Json))
    (hsucc : pyTruthy (List.lookup "success" gkvs) = true) :
    resultLookup (analyze_repository req (.resp 200 (.obj gkvs))
        (.resp 200 (responseToJson (analyze_with_ai key (.error emsg) areq)))
        (.resp 200 (.obj skvs))).result "ai_summary" =
      some (Json.str "Ошибка при генерации аналитики") ∧
    resultLookup (analyze_repository req (.resp 200 (.obj gkvs))
        (.resp 200 (responseToJson (analyze_with_ai key (.error emsg) areq)))
        (.resp 200 (.obj skvs))).result "ai_recommendations" =
      some (Json.arr [Json.str "Увеличьте частоту коммитов",
                      Json.str "Закройте устаревшие Issues"]) ∧
    (∃ outKvs, (analyze_repository req (.resp 200 (.obj gkvs))
        (.resp 200 (responseToJson (analyze_with_ai key (.error emsg) areq)))
        (.resp 200 (.obj skvs))).result = Except.ok (Json.obj outKvs)) ∧
    Stage.persist ∈ (analyze_repository req (.resp 200 (.obj gkvs))
        (.resp 200 (responseToJson (analyze_with_ai key (.error emsg) areq)))
        (.resp 200 (.obj skvs))).stages ∧
    (analyze_repository req (.resp 200 (.obj gkvs))
        (.resp 200 (responseToJson (analyze_with_ai key (.error emsg) areq)))
        (.resp 200 (.obj skvs))).saveBody.isSome = true := by
  have har : analyze_with_ai key (.error emsg) areq = analyzeErrorResponse emsg areq := by
    unfold analyze_with_ai
    rw [if_neg (by simp [hkey])]
  have haj : responseToJson (analyzeErrorResponse emsg areq) = Json.obj
      [("success", Json.bool false), ("error", Json.str emsg),
       ("analysis", Json.str (generate_fallback_analysis areq.activity_data)),
       ("recommendations", Json.arr [Json.str "Увеличьте частоту коммитов",
                                     Json.str "Закройте устаревшие Issues"]),
       ("insights", Json.obj [("strengths", Json.arr []), ("weaknesses", Json.arr []),
                              ("trends", Json.arr []), ("health_score", Json.str "0")]),
       ("summary", Json.str "Ошибка при генерации аналитики")] := rfl
  have hcall : ∀ (url : String) (body : Json), call_service url (.resp 200 body) = .ok body := by
    intro url body
    rfl
  rw [har, haj]
  have hres : analyze_repository req (.resp 200 (.obj gkvs))
      (.resp 200 (Json.obj
        [("success", Json.bool false), ("error", Json.str emsg),
         ("analysis", Json.str (generate_fallback_analysis areq.activity_data)),
         ("recommendations", Json.arr [Json.str "Увеличьте частоту коммитов",
                                       Json.str "Закройте устаревшие Issues"]),
         ("insights", Json.obj [("strengths", Json.arr []), ("weaknesses", Json.arr []),
                                ("trends", Json.arr []), ("health_score", Json.str "0")]),
         ("summary", Json.str "Ошибка при генерации аналитики")]))
      (.resp 200 (.obj skvs)) = ⟨.ok (assemble_result req gkvs
        [("success", Json.bool false), ("error", Json.str emsg),
         ("analysis", Json.str (generate_fallback_analysis areq.activity_data)),
         ("recommendations", Json.arr [Json.str "Увеличьте частоту коммитов",
                                       Json.str "Закройте устаревшие Issues"]),
         ("insights", Json.obj [("strengths", Json.arr []), ("weaknesses", Json.arr []),
                                ("trends", Json.arr []), ("health_score", Json.str "0")]),
         ("summary", Json.str "Ошибка при генерации аналитики")] skvs),
        [Stage.fetch, Stage.generate, Stage.persist, Stage.assemble],
        some (save_payload req gkvs
        [("success", Json.bool false), ("error", Json.str emsg),
         ("analysis", Json.str (generate_fallback_analysis areq.activity_data)),
         ("recommendations", Json.arr [Json.str "Увеличьте частоту коммитов",
                                       Json.str "Закройте устаревшие Issues"]),
         ("insights", Json.obj [("strengths", Json.arr []), ("weaknesses", Json.arr []),
                                ("trends", Json.arr []), ("health_score", Json.str "0")]),
         ("summary", Json.str "Ошибка при генерации аналитики")])⟩ := by
    unfold analyze_repository
    simp only [hcall, hsucc, Bool.not_true, Bool.false_eq_true, if_false]
  rw [hres]
  exact ⟨rfl, rfl, ⟨_, rfl⟩, by simp, rfl⟩

theorem c6_ai_unreachable_witness :
    pyTruthy (List.lookup "success" [("success", Json.bool true)]) = true ∧
    resultLookup (analyze_repository ⟨"o", "r", "2024-01-01T00:00:00Z", "2024-01-31T00:00:00Z"⟩
        (.resp 200 (.obj [("success", Json.bool true)]))
        (.resp 200 (responseToJson (analyze_with_ai "key" (.error "Connection refused") c1req)))
        (.resp 200 (.obj [("record_id", Json.num 1)]))).result "ai_summary" =
      some (Json.str "Ошибка при генерации аналитики") ∧
    Stage.persist ∈ (analyze_repository ⟨"o", "r", "2024-01-01T00:00:00Z", "2024-01-31T00:00:00Z"⟩
        (.resp 200 (.obj [("success", Json.bool true)]))
        (.resp 200 (responseToJson (analyze_with_ai "key" (.error "Connection refused") c1req)))
        (.resp 200 (.obj [("record_id", Json.num 1)]))).stages := by
  have h := c6_ai_unreachable_pipeline
    ⟨"o", "r", "2024-01-01T00:00:00Z", "2024-01-31T00:00:00Z"⟩ c1req
    "key" "Connection refused" (by decide)
    [("success", Json.bool true)] [("record_id", Json.num 1)] (by decide)
  exact ⟨by decide, h.1, h.2.2.2.1⟩

/-- C7: whenever the fetch stage fails — the GitHub call raises (404,
timeout, transport error, upstream 4xx/5xx) or returns a falsy `success` —
the pipeline aborts with the corresponding client-facing error: only the
fetch call was issued, the analytics (Generate) and database (Persist)
services are never called, and no save body is built. -/
theorem c7_fetch_failure_aborts (req : GatewayRequest) (g a d : HttpOutcome)
    (h : gatewayFetchFails g = true) :
    (analyze_repository req g a d).stages = [Stage.fetch] ∧
    Stage.generate ∉ (analyze_repository req g a d).stages ∧
    Stage.persist ∉ (analyze_repository req g a d).stages ∧
    (analyze_repository req g a d).saveBody = none ∧
    (analyze_repository req g a d).result = Except.error (expectedFetchError g) := by
  cases hc : call_service (GITHUB_SERVICE_URL ++ "/analyze") g with
  | error e =>
    have hres : analyze_repository req g a d = ⟨.error e, [Stage.fetch], none⟩ := by
      unfold analyze_repository
      rw [hc]
    have hexp : expectedFetchError g = e := by
      unfold expectedFetchError
      rw [hc]
    rw [hres, hexp]
    exact ⟨rfl, by simp, by simp, rfl, rfl⟩
  | ok body =>
    have hobj : ∃ kvs, body = Json.obj kvs := by
      simp only [gatewayFetchFails, hc] at h
      cases body
      case obj kvs => exact ⟨kvs, rfl⟩
      all_goals simp at h
    obtain ⟨kvs, rfl⟩ := hobj
    have ht : pyTruthy (List.lookup "success" kvs) = false := by
      simp only [gatewayFetchFails, hc] at h
      simpa using h
    have hres : analyze_repository req g a d =
        ⟨.error ⟨404, "GitHub data not found or analysis failed"⟩, [Stage.fetch], none⟩ := by
      unfold analyze_repository
      rw [hc]
      simp [ht]
    have hexp : expectedFetchError g = ⟨404, "GitHub data not found or analysis failed"⟩ := by
      unfold expectedFetchError
      rw [hc]
    rw [hres, hexp]
    exact ⟨rfl, by simp, by simp, rfl, rfl⟩

theorem c7_fetch_failure_witness :
    gatewayFetchFails (HttpOutcome.resp 404 Json.null) = true ∧
    (analyze_repository ⟨"o", "r", "2024-01-01T00:00:00Z", "2024-01-31T00:00:00Z"⟩
      (.resp 404 .null) .timeout .timeout).stages = [Stage.fetch] ∧
    Stage.persist ∉ (analyze_repository ⟨"o", "r", "2024-01-01T00:00:00Z", "2024-01-31T00:00:00Z"⟩
      (.resp 404 .null) .timeout .timeout).stages := by
  have h := c7_fetch_failure_aborts
    ⟨"o", "r", "2024-01-01T00:00:00Z", "2024-01-31T00:00:00Z"⟩
    (.resp 404 .null) .timeout .timeout (by decide)
  exact ⟨by decide, h.1, h.2.2.1⟩

/-! ## Claims C8 and C9 (GitHub service numeric metrics) -/

/-- C8: for all non-negative integers, including `subscribers_count = 0`,
the activity index computed by the GitHub service equals
`(total_commits / max(subscribers_count, 1)) * 100` rounded to 2 decimals:
the ternary guard in the source is exactly the `max(·, 1)` guard of the
spec formula. -/
theorem c8_activity_index_formula (startSec endSec : Int)
    (total_commits subscribers_count : Nat) :
    (analyze_metrics startSec endSec total_commits subscribers_count).activity_index =
      round2 ((total_commits : ℚ) / ((max subscribers_count 1 : Nat) : ℚ) * 100) := by
  show activity_index_calc total_commits subscribers_count = _
  unfold activity_index_calc
  have hmax : (if 0 < subscribers_count then subscribers_count else 1) =
      max subscribers_count 1 := by
    rcases Nat.eq_zero_or_pos subscribers_count with h | h
    · subst h; rfl
    · rw [if_pos h, Nat.max_eq_left h]
  rw [hmax]

/-- C9 (counterexample): for a request whose `end_date − start_date` is
exactly 30 whole days (2 592 000 seconds) and 120 commits, the code divides
by `(end − start).days + 1 = 31`, giving `average_commits_per_day = 3.87`,
not the `4.00` the claim derives from dividing by the 30-day window. -/
theorem c9_counterexample :
    windowDays 0 2592000 = 31 ∧
    (analyze_metrics 0 2592000 120 40).average_commits_per_day = 387 / 100 ∧
    ((387 : ℚ) / 100) ≠ 4 ∧
    round2 ((120 : ℚ) / 30) = 4 := by
  refine ⟨by decide, ?_, by norm_num, ?_⟩
  · have hd : windowDays 0 2592000 = 31 := by decide
    simp only [analyze_metrics, hd]
    rw [if_pos (by norm_num : (0 : Int) < 31)]
    have h1 : ((120 : Nat) : ℚ) / ((31 : Int) : ℚ) * 100 = 12000 / 31 := by norm_num
    rw [round2, h1, roundHalfEven]
    norm_num [show Int.fdiv 12000 31 = 387 from by decide]
  · have h1 : (120 : ℚ) / 30 * 100 = 400 / 1 := by norm_num
    rw [round2, h1, roundHalfEven]
    norm_num [show Int.fdiv 400 1 = 400 from by decide]

/-- C9 (amended): the analysis window is `(end − start).days + 1` — one
more than the whole days between the dates — and
`average_commits_per_day = round(total_commits / days, 2)`.  120 commits
over a request whose dates are 29 whole days apart (`days = 30`) give
`average_commits_per_day = 4.00`, and with `subscribers_count = 40`,
`activity_index = 300.00`. -/
theorem c9_window_days_amended :
    (∀ (s e : Int) (t subs : Nat),
      (analyze_metrics s e t subs).analysis_period_days = (e - s).fdiv 86400 + 1 ∧
      (analyze_metrics s e t subs).average_commits_per_day =
        (if 0 < (e - s).fdiv 86400 + 1 then
          round2 ((t : ℚ) / (((e - s).fdiv 86400 + 1 : Int) : ℚ)) else 0)) ∧
    (analyze_metrics 0 2505600 120 40).analysis_period_days = 30 ∧
    (analyze_metrics 0 2505600 120 40).average_commits_per_day = 4 ∧
    (analyze_metrics 0 2505600 120 40).activity_index = 300 := by
  refine ⟨?_, by decide, ?_, ?_⟩
  · intro s e t subs
    refine ⟨rfl, ?_⟩
    simp only [analyze_metrics, windowDays]
    by_cases h : 0 < (e - s).fdiv 86400 + 1
    · rw [if_pos h, if_pos h]
    · rw [if_neg h, if_neg h]
      rw [round2]
      norm_num [roundHalfEven]
  · have hd : windowDays 0 2505600 = 30 := by decide
    simp only [analyze_metrics, hd]
    rw [if_pos (by norm_num : (0 : Int) < 30)]
    have h1 : ((120 : Nat) : ℚ) / ((30 : Int) : ℚ) * 100 = 400 / 1 := by norm_num
    rw [round2, h1, roundHalfEven]
    norm_num [show Int.fdiv 400 1 = 400 from by decide]
  · simp only [analyze_metrics, activity_index_calc]
    rw [if_pos (by norm_num : 0 < 40)]
    have h1 : ((120 : Nat) : ℚ) / ((40 : Nat) : ℚ) * 100 * 100 = 30000 / 1 := by norm_num
    rw [round2, h1, roundHalfEven]
    norm_num [show Int.fdiv 30000 1 = 30000 from by decide]

/-! ## Claim C10 (database save / listForRepo) -/

/-- Inserting a record with a strictly larger timestamp than everything in
the list sorts to the front. -/
theorem sortTsDesc_append_max (l : List StatsRecord) (v : StatsRecord)
    (h : ∀ x ∈ l, x.timestamp < v.timestamp) :
    sortTsDesc (l ++ [v]) = v :: sortTsDesc l := by
  induction l with
  | nil => rfl
  | cons a l' ih =>
    have ha : a.timestamp < v.timestamp := h a (List.mem_cons_self a l')
    rw [List.cons_append]
    show insertTsDesc a (sortTsDesc (l' ++ [v])) = v :: insertTsDesc a (sortTsDesc l')
    rw [ih (fun x hx => h x (List.mem_cons_of_mem a hx))]
    show (if v.timestamp < a.timestamp then a :: v :: sortTsDesc l'
          else v :: insertTsDesc a (sortTsDesc l')) = v :: insertTsDesc a (sortTsDesc l')
    rw [if_neg (by omega)]

/-- C10: saving a record and immediately querying `listForRepo` for that
owner and repository with limit 1 returns exactly one record whose fields
are the saved values; the id is freshly assigned by the store, strictly
greater than every previously assigned id.  (The timestamp hypothesis is
the "immediately" of the claim: the new `CURRENT_TIMESTAMP` exceeds every
stored one.) -/
theorem c10_save_then_listForRepo (db : StatsDb) (req : StatsSaveRequest) (now : Nat)
    (hts : (db.rows.all fun r => decide (r.timestamp < now)) = true)
    (hid : (db.rows.all fun r => decide (r.id < db.next_id)) = true) :
    get_repo_history (save_statistics db req now).1 req.owner req.repo_name 1 =
      [{ id := (save_statistics db req now).2, owner := req.owner,
         repo_name := req.repo_name, total_commits := req.total_commits,
         total_contributors := req.total_contributors,
         avg_commits_per_day := req.avg_commits_per_day,
         analysis_period_days := req.analysis_period_days,
         activity_index := req.activity_index, timestamp := now,
         additional_data := req.additional_data }] ∧
    ∀ r ∈ db.rows, r.id < (save_statistics db req now).2 := by
  constructor
  · unfold get_repo_history save_statistics
    rw [List.filter_append]
    have hnewpass : (List.filter (fun r : StatsRecord => r.owner == req.owner && r.repo_name == req.repo_name)
        [{ id := db.next_id, owner := req.owner, repo_name := req.repo_name,
           total_commits := req.total_commits, total_contributors := req.total_contributors,
           avg_commits_per_day := req.avg_commits_per_day,
           analysis_period_days := req.analysis_period_days,
           activity_index := req.activity_index, timestamp := now,
           additional_data := req.additional_data }]) =
        [{ id := db.next_id, owner := req.owner, repo_name := req.repo_name,
           total_commits := req.total_commits, total_contributors := req.total_contributors,
           avg_commits_per_day := req.avg_commits_per_day,
           analysis_period_days := req.analysis_period_days,
           activity_index := req.activity_index, timestamp := now,
           additional_data := req.additional_data }] := by
      simp [List.filter]
    rw [hnewpass]
    rw [sortTsDesc_append_max _ _ (fun x hx => by
      have hxr : x ∈ db.rows := List.mem_of_mem_filter hx
      have := List.all_eq_true.mp hts x hxr
      exact of_decide_eq_true this)]
    rfl
  · intro r hr
    have := List.all_eq_true.mp hid r hr
    exact of_decide_eq_true this



theorem c10_save_then_listForRepo_witness :
    (c10db.rows.all fun r => decide (r.timestamp < 200)) = true ∧
    (c10db.rows.all fun r => decide (r.id < c10db.next_id)) = true ∧
    get_repo_history (save_statistics c10db c10req 200).1 "octocat" "hello" 1 =
      [{ id := (save_statistics c10db c10req 200).2, owner := "octocat",
         repo_name := "hello", total_commits := 120, total_contributors := 3,
         avg_commits_per_day := 4, analysis_period_days := 30,
         activity_index := 300, timestamp := 200, additional_data := none }] := by
  have h := c10_save_then_listForRepo c10db c10req 200 (by decide) (by decide)
  exact ⟨by decide, by decide, h.1⟩

end GithubAnalyst
